import Mathlib

/-!
Shallow embedding of the fireworks-app event API (src/api) in Lean 4.

Python sources modelled here:
  - src/api/filters.py : keyword classifiers (is_psy_event, is_psy_event_strict,
    filter_psy_events, get_keyword_matches);
  - src/api/clubberia_scraper.py : the post-scrape pipeline of
    ClubberScraper.scrape_clubberia (_remove_duplicates, _filter_future_events,
    _parse_date_for_sort, the sorted() calls, the < 3 fallback extension with
    _get_realistic_clubberia_events, and the final [:50] truncation);
  - src/api/cache.py : TTLCache (get / set / has_valid_cache) and
    EventCache.get_events for source="clubberia";
  - src/api/main.py : the source == "clubberia" branch of the /events handler,
    including its `except Exception` fallback path.

Modelling conventions:
  - `time.time()` / `datetime.now()` readings are explicit parameters; a
    function that calls the clock several times takes one parameter per call
    site (the calls are distinct in the source and need not agree).
    Wall-clock instants are integers (seconds); calendar days are naturals
    (day serial numbers of the proleptic Gregorian calendar, as computed by
    daysFromCivil below).
  - `random.choice` / `random.randint` draws are an explicit input stream
    (`MockPick`): `random.choice(xs)` is modelled as indexing `xs` at a
    provided index taken modulo `xs.length`, and `random.randint(7, 180)` as
    `7 + r % 174` for a provided `r`.
  - A Python event dict is the structure `Event`; `dict.get(key, '')` is a
    plain field read (the scraper always populates every field it reads).
    Lists that may hold falsy entries (the `if event:` test in
    _remove_duplicates) are `List (Option Event)`, `none` standing for a
    falsy (empty) dict.
  - A raised exception is `Except.error`; the network part of
    scrape_clubberia (page fetching, lines 33-74) is outside the embedding,
    so the post-processing pipeline takes the accumulated `all_events` list
    as input and the scraper call in cache.py is an `Except` parameter.
-/

/-! ## Events (the dicts built by the scrapers) -/

structure Event where
  id : Int
  title : String
  date : String
  place : String
  url : String
  image : String
  genre : String
  description : String
deriving DecidableEq

/-! ## filters.py -/

/-- Python `str.lower()` applied characterwise (ASCII case folding; the
keywords and the event texts considered here only ever case-fold ASCII). -/
def lowerChars (s : String) : List Char :=
  s.toList.map Char.toLower

/-- Helper of containsSub: does `needle` start at the head of `hay`? -/
def startsWithChars : List Char → List Char → Bool
  | _, [] => true
  | [], _ :: _ => false
  | c :: cs, d :: ds => c == d && startsWithChars cs ds

/-- Python's substring test `needle in hay` on strings (contiguous
occurrence anywhere, the empty needle always contained). -/
def containsSub (hay needle : List Char) : Bool :=
  match hay with
  | [] => needle.isEmpty
  | _ :: t => startsWithChars hay needle || containsSub t needle

/-- The ALLOWED_KEYWORDS list of filters.py, lines 10-15. -/
def ALLOWED_KEYWORDS : List String :=
  ["psy", "psychedelic", "goa", "forest", "フルオン", "サイケ",
   "ハイテック", "psybient", "サイビエント", "trance", "トランス",
   "psytrance", "progressive", "プログレッシブ", "hitech", "darkpsy",
   "full-on", "minimal", "ミニマル", "ambient", "アンビエント"]

/-- filters.is_psy_event (lines 17-38): empty text is rejected, otherwise
any allow-list keyword occurring in the lowered text accepts. -/
def is_psy_event (text : String) : Bool :=
  if text.isEmpty then false
  else ALLOWED_KEYWORDS.any fun kw => containsSub (lowerChars text) (lowerChars kw)

/-- The text is_psy_event_strict builds: `' '.join([title, description,
genre, place])` (filters.py lines 52-59). -/
def combined_text (e : Event) : String :=
  String.intercalate " " [e.title, e.description, e.genre, e.place]

/-- The exclude_keywords list of filters.py, lines 66-69. -/
def EXCLUDE_KEYWORDS : List String :=
  ["jpop", "j-pop", "jazz", "rock", "punk", "metal", "classical",
   "演歌", "カラオケ", "アイドル", "ポップス"]

/-- filters.is_psy_event_strict (lines 40-76): accepts on an allow-list hit
in the combined text; otherwise returns False whether or not an exclude
keyword occurs (the deny-list branch and the fall-through both return
False). -/
def is_psy_event_strict (e : Event) : Bool :=
  if is_psy_event (combined_text e) then true
  else if EXCLUDE_KEYWORDS.any (fun ex => containsSub (lowerChars (combined_text e)) (lowerChars ex)) then false
  else false

/-- filters.filter_psy_events (lines 78-95). -/
def filter_psy_events (events : List Event) : List Event :=
  events.filter is_psy_event_strict

/-- filters.get_keyword_matches (lines 97-118): the sublist of
ALLOWED_KEYWORDS occurring in the lowered text, empty for empty text. -/
def get_keyword_matches (text : String) : List String :=
  if text.isEmpty then []
  else ALLOWED_KEYWORDS.filter fun kw => containsSub (lowerChars text) (lowerChars kw)

/-! ## Calendar arithmetic (datetime / strptime / strftime) -/

/-- Gregorian leap-year rule, as used by Python's datetime. -/
def isLeapYear (y : Nat) : Bool :=
  y % 4 == 0 && (y % 100 != 0 || y % 400 == 0)

/-- Length of a month, as validated by datetime's constructor. -/
def daysInMonth (y m : Nat) : Nat :=
  if m == 2 then (if isLeapYear y then 29 else 28)
  else if m == 4 || m == 6 || m == 9 || m == 11 then 30
  else 31

/-- Day serial number of a proleptic Gregorian date (days since 0000-03-01),
the standard civil-calendar conversion; valid for years ≥ 1. Orders dates
chronologically, which is all `datetime` comparison and `timedelta`
arithmetic need. -/
def daysFromCivil (y m d : Nat) : Nat :=
  let y2 := if m ≤ 2 then y - 1 else y
  let era := y2 / 400
  let yoe := y2 % 400
  let mp := (m + 9) % 12
  let doy := (153 * mp + 2) / 5 + (d - 1)
  let doe := yoe * 365 + yoe / 4 - yoe / 100 + doy
  era * 146097 + doe

/-- Inverse of daysFromCivil: the (year, month, day) of a day serial
number. -/
def civilFromDays (z : Nat) : Nat × Nat × Nat :=
  let era := z / 146097
  let doe := z % 146097
  let yoe := (doe - doe / 1460 + doe / 36524 - doe / 146096) / 365
  let y2 := yoe + era * 400
  let doy := doe - (365 * yoe + yoe / 4 - yoe / 100)
  let mp := (5 * doy + 2) / 153
  let d := doy - (153 * mp + 2) / 5 + 1
  let m := if mp < 10 then mp + 3 else mp - 9
  if m ≤ 2 then (y2 + 1, m, d) else (y2, m, d)

/-- Digits of a decimal numeral read as a Nat; none when empty or when a
character is not a digit. -/
def digitsToNat (cs : List Char) : Option Nat :=
  if cs.isEmpty then none
  else if cs.all Char.isDigit then some (cs.foldl (fun n c => 10 * n + (c.toNat - 48)) 0)
  else none

/-- Split a character list at every occurrence of `sep` (Python
`str.split(sep)` on the characters; adjacent separators give empty
fields). -/
def splitOnChar (sep : Char) : List Char → List (List Char)
  | [] => [[]]
  | c :: rest =>
    match splitOnChar sep rest with
    | [] => if c == sep then [[], []] else [[c]]
    | h :: t => if c == sep then [] :: h :: t else (c :: h) :: t

/-- Python `datetime.strptime(s, "%Y/%m/%d")` as a partial date reader:
exactly three '/'-separated fields, a 4-digit year (datetime requires
year ≥ 1), a 1-2 digit month in 1..12, a 1-2 digit day valid for the
month; `none` models the ValueError the callers catch. -/
def parse_date (s : String) : Option (Nat × Nat × Nat) :=
  match splitOnChar '/' s.toList with
  | [ys, ms, ds] =>
    match digitsToNat ys, digitsToNat ms, digitsToNat ds with
    | some y, some m, some d =>
      if ys.length = 4 ∧ 1 ≤ y ∧ ms.length ≤ 2 ∧ 1 ≤ m ∧ m ≤ 12 ∧ ds.length ≤ 2 ∧ 1 ≤ d ∧ d ≤ daysInMonth y m
      then some (y, m, d) else none
    | _, _, _ => none
  | _ => none

/-- Seconds in a day; datetimes are modelled as seconds on the
daysFromCivil scale (a parsed date is its midnight). -/
def secondsPerDay : Nat := 86400

/-- ClubberScraper._parse_date_for_sort (clubberia_scraper.py lines
730-737): the sort key of a date string; an unparseable date gets
`datetime.now() + timedelta(days=365)`, where `now` (in seconds) is the
clock reading of that call. -/
def parse_date_for_sort (now : Nat) (date_str : String) : Nat :=
  match parse_date date_str with
  | some (y, m, d) => secondsPerDay * daysFromCivil y m d
  | none => now + 365 * secondsPerDay

/-- Comparison by sort key: the order `sorted(events, key=...)` sorts by. -/
def dateLE (now : Nat) (a b : Event) : Prop :=
  parse_date_for_sort now a.date ≤ parse_date_for_sort now b.date

instance (now : Nat) : DecidableRel (dateLE now) :=
  fun _ _ => Nat.decLe _ _

instance (now : Nat) : IsTotal Event (dateLE now) :=
  ⟨fun _ _ => Nat.le_total _ _⟩

instance (now : Nat) : IsTrans Event (dateLE now) :=
  ⟨fun _ _ _ => Nat.le_trans⟩

/-- Python `sorted(events, key=lambda x: self._parse_date_for_sort(x['date']))`:
a stable sort by the date key (insertion sort realises it). -/
def sort_events (now : Nat) (l : List Event) : List Event :=
  List.insertionSort (dateLE now) l

/-! ## Deduplication (clubberia_scraper.py lines 697-711; the identical
method PsytranceScraper._remove_duplicates, psytrance_scraper.py lines
317-331, is the same code) -/

/-- The `(event['title'], event['date'])` identifier deduplication keys
on. -/
def evKey (e : Event) : String × String :=
  (e.title, e.date)

/-- Loop of _remove_duplicates: `seen` is the set of identifiers met so
far (a list with membership models the Python set); falsy entries
(`if event:`) are skipped. -/
def remove_duplicates_aux (seen : List (String × String)) : List (Option Event) → List Event
  | [] => []
  | none :: rest => remove_duplicates_aux seen rest
  | some e :: rest =>
    if evKey e ∈ seen then remove_duplicates_aux seen rest
    else e :: remove_duplicates_aux (evKey e :: seen) rest

/-- ClubberScraper._remove_duplicates (and PsytranceScraper's identical
copy): keep the first event of each (title, date) pair, in order. -/
def remove_duplicates (events : List (Option Event)) : List Event :=
  remove_duplicates_aux [] events

/-! ## Future filter (clubberia_scraper.py lines 713-728) -/

/-- Body of the _filter_future_events loop: keep an event when its date
parses to today or later, and also when parsing raises ValueError. -/
def keep_future (today : Nat) (e : Event) : Bool :=
  match parse_date e.date with
  | some (y, m, d) => decide (today ≤ daysFromCivil y m d)
  | none => true

/-- ClubberScraper._filter_future_events: `today` is the day serial of
`datetime.now().date()` at the call. -/
def filter_future_events (today : Nat) (events : List Event) : List Event :=
  events.filter (keep_future today)

/-! ## Fallback synthesizer (clubberia_scraper.py lines 739-782) -/

/-- The artists list of _get_realistic_clubberia_events. -/
def mock_artists : List String :=
  ["Astrix", "Vini Vici", "Captain Hook", "Avalon", "Neelix", "Liquid Soul",
   "Interactive Noise", "Freedom Fighters", "Coming Soon", "Infected Mushroom",
   "Ace Ventura", "Symbolic", "Vertical Mode", "Ghost Rider", "Perfect Stranger"]

/-- The venues list of _get_realistic_clubberia_events. -/
def mock_venues : List String :=
  ["WOMB, Shibuya", "ageHa, Shimbashi", "Contact, Shibuya", "Sound Museum Vision, Shibuya",
   "CIRCUS Tokyo, Shibuya", "Camelot, Shibuya", "Atom, Shibuya", "Air, Ginza",
   "UNIT, Daikanyama", "Fai, Shibuya", "Club STORM, Shibuya", "Harlem, Shibuya"]

/-- The event_types list of _get_realistic_clubberia_events. -/
def mock_event_types : List String :=
  ["Psychedelic Journey", "Progressive Night", "Goa Classics", "Forest Gathering",
   "Full-On Experience", "Hitech Madness", "Trance Unity", "Psychedelic Adventure"]

/-- The psychedelic_images list of _get_default_psychedelic_image
(clubberia_scraper.py lines 677-684). -/
def psychedelic_images : List String :=
  ["https://images.unsplash.com/photo-1518005020951-eccb49447d0a?q=80&w=400&auto=format&fit=crop",
   "https://images.unsplash.com/photo-1517457375823-0706694789e8?q=80&w=400&auto=format&fit=crop",
   "https://images.unsplash.com/photo-1500382017468-9049ce8b650c?q=80&w=400&auto=format&fit=crop",
   "https://images.unsplash.com/photo-1493225457124-a3eb161ffa5f?q=80&w=400&auto=format&fit=crop",
   "https://images.unsplash.com/photo-1540039155733-5bb30b53aa14?q=80&w=400&auto=format&fit=crop",
   "https://images.unsplash.com/photo-1571266028243-d220c9b34652?q=80&w=400&auto=format&fit=crop"]

/-- One loop iteration's random draws in _get_realistic_clubberia_events:
indices for the random.choice calls on artists, venues, event_types and
images, and the randint(7, 180) draw behind _get_future_date. -/
structure MockPick where
  artistIdx : Nat
  venueIdx : Nat
  typeIdx : Nat
  daysRand : Nat
  imageIdx : Nat
deriving DecidableEq

/-- random.choice on a nonempty list, the draw given as an index (reduced
modulo the length, so every element is reachable). -/
def choiceOf (l : List String) (i : Nat) : String :=
  l.getD (i % l.length) ""

/-- Zero-padded decimal numeral of width `w` (strftime's %Y / %m / %d
padding for the in-range dates generated here). -/
def padNum (w n : Nat) : String :=
  let s := Nat.repr n
  String.mk (List.replicate (w - s.length) '0') ++ s

/-- strftime("%Y/%m/%d") of a (year, month, day) triple. -/
def format_civil (ymd : Nat × Nat × Nat) : String :=
  padNum 4 ymd.1 ++ "/" ++ padNum 2 ymd.2.1 ++ "/" ++ padNum 2 ymd.2.2

/-- ClubberScraper._get_future_date (lines 650-657): today's date plus
randint(7, 180) days, formatted %Y/%m/%d; `r` is the randint draw. -/
def get_future_date (today : Nat) (r : Nat) : String :=
  format_civil (civilFromDays (today + (7 + r % 174)))

/-- Python `venue.split(',')[0]`. -/
def venueCity (venue : String) : String :=
  (venue.splitOn ",").headD ""

/-- Python `s.lower()` as a String. -/
def lowerString (s : String) : String :=
  String.mk (lowerChars s)

/-- ClubberScraper._get_realistic_clubberia_events (lines 739-782): eight
synthesized events; `picks` supplies the random draws of iteration i. -/
def get_realistic_clubberia_events (today : Nat) (picks : Nat → MockPick) : List Event :=
  (List.range 8).map fun i =>
    let p := picks i
    let artist := choiceOf mock_artists p.artistIdx
    let venue := choiceOf mock_venues p.venueIdx
    let etype := choiceOf mock_event_types p.typeIdx
    { id := 5000 + (i : Int)
      title := artist ++ " presents " ++ etype
      date := get_future_date today p.daysRand
      place := venue
      url := "https://clubberia.com/ja/events/psychedelic-" ++ toString i
      image := choiceOf psychedelic_images p.imageIdx
      genre := "Psychedelic Trance"
      description := "Experience the psychedelic journey with " ++ artist ++ " at "
        ++ venueCity venue ++ ". An unforgettable night of " ++ lowerString etype ++ "!" }

/-! ## The scrape_clubberia post-processing pipeline (lines 76-93) -/

/-- Stages 1-3 of scrape_clubberia's post-processing: deduplicate the
accumulated page events, keep future events, sort by date key. This is
the `sorted_events` value of line 83, before the fallback extension. -/
def pre_extend (today now : Nat) (all_events : List (Option Event)) : List Event :=
  sort_events now (filter_future_events today (remove_duplicates all_events))

/-- Lines 87-93 of scrape_clubberia: when fewer than 3 events survive,
extend with the eight synthesized events and re-sort; finally truncate to
at most 50. -/
def scrape_clubberia_post (today now : Nat) (picks : Nat → MockPick) (all_events : List (Option Event)) : List Event :=
  (if (pre_extend today now all_events).length < 3
   then sort_events now (pre_extend today now all_events ++ get_realistic_clubberia_events today picks)
   else pre_extend today now all_events).take 50

/-! ## cache.py : TTLCache -/

/-- One cache slot, as stored by TTLCache.set (value, expires_at,
created_at, last_accessed); clock readings are integer seconds. -/
structure CacheItem (V : Type) where
  value : V
  expires_at : Int
  created_at : Int
  last_accessed : Int
deriving DecidableEq

/-- The dict behind TTLCache (`self._cache`), as a map from keys to
slots. -/
def Store (V : Type) : Type :=
  String → Option (CacheItem V)

/-- The empty cache. -/
def emptyStore (V : Type) : Store V :=
  fun _ => none

/-- TTLCache.get (cache.py lines 17-35): a missing key gives None; an
entry with `time.time() > expires_at` is deleted and gives None;
otherwise last_accessed is refreshed and the value returned. `now` is
the clock at the expiry test, `nowAcc` at the last_accessed update. -/
def TTLCache.get (now nowAcc : Int) {V : Type} (m : Store V) (k : String) : Option V × Store V :=
  match m k with
  | none => (none, m)
  | some item =>
    if item.expires_at < now then
      (none, fun q => if q = k then none else m q)
    else
      (some item.value, fun q => if q = k then some { item with last_accessed := nowAcc } else m q)

/-- TTLCache.set (cache.py lines 37-51): stores
`{'value': v, 'expires_at': time.time() + ttl, 'created_at': time.time(),
'last_accessed': time.time()}`; t1, t2, t3 are the three clock readings
in source order. -/
def TTLCache.set (t1 t2 t3 : Int) {V : Type} (m : Store V) (k : String) (v : V) (ttl : Int) : Store V :=
  fun q => if q = k then some ⟨v, t1 + ttl, t2, t3⟩ else m q

/-- TTLCache.has_valid_cache (cache.py lines 106-115): the key is present
and `time.time() <= expires_at`. -/
def TTLCache.has_valid_cache (now : Int) {V : Type} (m : Store V) (k : String) : Bool :=
  match m k with
  | none => false
  | some item => decide (now ≤ item.expires_at)

/-! ## cache.py : EventCache.get_events (source="clubberia", lines
128-161) and the /events handler of main.py (lines 110-143 and the
except-block lines 194-219) -/

/-- The clubberia cache key (`f"clubberia_events"`). -/
def clubberia_key : String := "clubberia_events"

/-- EventCache.events_key (`"psytrance_events"`). -/
def events_key : String := "psytrance_events"

/-- The try-block of get_events: scrape, cache the fresh list under the
clubberia key with the custom ttl, and return it; a scraping exception is
re-raised (logged and `raise`). -/
def scrape_and_cache (tS1 tS2 tS3 : Int) (scrape : Except Unit (List Event)) (ttl : Int) (m : Store (List Event)) : Except Unit (List Event) × Store (List Event) :=
  match scrape with
  | .ok fresh => (.ok fresh, TTLCache.set tS1 tS2 tS3 m clubberia_key fresh ttl)
  | .error e => (.error e, m)

/-- EventCache.get_events for source="clubberia" (cache.py lines 137-161):
when the clubberia entry is valid and its value truthy (a non-empty
list), return it; otherwise scrape. The clock readings: tValid at
has_valid_cache, tGet/tAcc inside the cache.get call, tS1-tS3 inside the
cache.set call. The scraper call is the `scrape` outcome. -/
def EventCache.get_events_clubberia (tValid tGet tAcc tS1 tS2 tS3 : Int) (m : Store (List Event)) (scrape : Except Unit (List Event)) (ttl : Int) : Except Unit (List Event) × Store (List Event) :=
  if TTLCache.has_valid_cache tValid m clubberia_key then
    match TTLCache.get tGet tAcc m clubberia_key with
    | (some evs, m2) => if evs ≠ [] then (.ok evs, m2) else scrape_and_cache tS1 tS2 tS3 scrape ttl m2
    | (none, m2) => scrape_and_cache tS1 tS2 tS3 scrape ttl m2
  else scrape_and_cache tS1 tS2 tS3 scrape ttl m

/-- The successful responses the source == "clubberia" branch of
main.get_events can produce: the normal clubberia payload or the
except-block's cache fallback (`"source": "cache_fallback"`). The
`"mock_fallback"` payload of main.py lines 211-219 is unreachable: the
line 210 call that would build it raises (see events_error_handler). -/
inductive EventsResponse
  | clubberia (events : List Event)
  | cache_fallback (events : List Event)
deriving DecidableEq

deriving instance DecidableEq for Except

/-- The two-stage genre filter of main.py lines 114-132: filter_psy_events,
then drop events whose lowered genre is 'unknown' or 'other' and that
fail is_psy_event_strict. -/
def genre_filter_psy (events : List Event) : List Event :=
  (filter_psy_events events).filter fun e =>
    !(((lowerString e.genre == "unknown") || (lowerString e.genre == "other")) && !is_psy_event_strict e)

/-- The except-block of main.get_events (main.py lines 194-219):
`event_cache.get_events()` with the default source reads the
psytrance_events entry through TTLCache.get; a truthy value is returned
as cache_fallback. Otherwise the code reaches
`mock_events = scraper._get_mock_events()` (line 210) — but that call
raises: `scraper` is a local name of get_events (it is assigned only in
the source == "major" branch at line 97, so it is unbound on this path),
and PsytranceScraper defines no _get_mock_events method either. The
exception escapes the except-block, so the endpoint errors out
(`Except.error`, an HTTP 500) instead of returning a mock payload. -/
def events_error_handler (tE tEAcc : Int) (m : Store (List Event)) : Except Unit EventsResponse × Store (List Event) :=
  match TTLCache.get tE tEAcc m events_key with
  | (some evs, m2) => if evs ≠ [] then (.ok (.cache_fallback evs), m2) else (.error (), m2)
  | (none, m2) => (.error (), m2)

/-- The source == "clubberia" branch of main.get_events (main.py lines
110-143) wrapped in its try/except (lines 194-219): fetch through
EventCache.get_events with ttl=21600, apply the genre filter when
genre == "psy", and on a raised exception run the except-block; an
`Except.error` result is an exception escaping the endpoint (HTTP 500). -/
def main_get_events_clubberia (tValid tGet tAcc tS1 tS2 tS3 tE tEAcc : Int) (m : Store (List Event)) (scrape : Except Unit (List Event)) (genre : String) : Except Unit EventsResponse × Store (List Event) :=
  match EventCache.get_events_clubberia tValid tGet tAcc tS1 tS2 tS3 m scrape 21600 with
  | (.ok evs, m1) => (.ok (.clubberia (if genre = "psy" then genre_filter_psy evs else evs)), m1)
  | (.error _, m1) => events_error_handler tE tEAcc m1

/-! ## Concrete fixtures used by witnesses and counterexamples -/

/-- The "Goa Trance Classics" test event of filters.py lines 137-142. -/
def goaTranceEvent : Event :=
  { id := 0, title := "Goa Trance Classics", date := "", place := "Underground Club",
    url := "", image := "", genre := "Goa", description := "Old school goa trance" }

/-- The "Jazz Night" test event of filters.py lines 143-148. -/
def jazzNightEvent : Event :=
  { id := 0, title := "Jazz Night", date := "", place := "Jazz Bar",
    url := "", image := "", genre := "Jazz", description := "Smooth jazz evening" }

/-- An event whose date string does not parse as %Y/%m/%d. -/
def tbaEvent : Event :=
  { id := 0, title := "Secret Rave", date := "Coming Soon", place := "TBA",
    url := "", image := "", genre := "", description := "" }

/-- An event with a parseable date more than one year in the future. -/
def farEvent : Event :=
  { id := 1, title := "Far Future Gathering", date := "2999/01/01", place := "Mt. Fuji",
    url := "", image := "", genre := "", description := "" }

/-- A minimal scraped event with the given id and date string. -/
def datedEvent (i : Nat) (d : String) : Event :=
  { id := Int.ofNat i, title := "Event " ++ Nat.repr i, date := d, place := "P",
    url := "", image := "", genre := "", description := "" }

/-- A constant random stream: always the first artist, venue, type and
image, and randint draw 0 (7 future days). -/
def cPick : MockPick := ⟨0, 0, 0, 0, 0⟩

/-- The day serial of 2025-10-12, a concrete `datetime.now().date()`. -/
def cToday : Nat := daysFromCivil 2025 10 12

/-- A store whose clubberia entry is stale at time 100 (expires_at 10). -/
def c4StaleStore : Store (List Event) :=
  fun q => if q = clubberia_key then some ⟨[datedEvent 9 "2025/12/01"], 10, 0, 0⟩ else none

/-- A store whose clubberia entry is valid at time 50 but holds the empty
list. -/
def c9Store : Store (List Event) :=
  fun q => if q = clubberia_key then some ⟨[], 100, 0, 0⟩ else none

/-! ## Helper lemmas -/

/-- A filter yields a non-empty list exactly when some element passes. -/
theorem filter_ne_nil_iff_any (p : String → Bool) (l : List String) :
    l.filter p ≠ [] ↔ l.any p = true := by
  constructor
  · intro h
    cases hf : l.filter p with
    | nil => exact absurd hf h
    | cons a t =>
      have ha : a ∈ l.filter p := by rw [hf]; exact List.mem_cons_self a t
      rcases List.mem_filter.mp ha with ⟨hal, hpa⟩
      exact List.any_eq_true.mpr ⟨a, hal, hpa⟩
  · intro h hnil
    rcases List.any_eq_true.mp h with ⟨x, hx, hpx⟩
    exact (List.filter_eq_nil_iff.mp hnil x hx) hpx

/-- The strict classifier agrees with the basic classifier on the combined
text: the deny-list branch and the fall-through both return false. -/
theorem strict_eq_is_psy_on_combined (e : Event) :
    is_psy_event_strict e = is_psy_event (combined_text e) := by
  unfold is_psy_event_strict
  cases h : is_psy_event (combined_text e)
  · simp [h]
  · simp [h]

/-- The deduplication loop emits each (title, date) key at most once, and
never a key already in `seen`. -/
theorem remove_duplicates_aux_key_nodup :
    ∀ (l : List (Option Event)) (seen : List (String × String)),
      ((remove_duplicates_aux seen l).map evKey).Nodup ∧
      ∀ p ∈ (remove_duplicates_aux seen l).map evKey, p ∉ seen := by
  intro l
  induction l with
  | nil => intro seen; exact ⟨List.nodup_nil, by simp [remove_duplicates_aux]⟩
  | cons hd tl ih =>
    intro seen
    cases hd with
    | none => simpa [remove_duplicates_aux] using ih seen
    | some e =>
      by_cases hmem : evKey e ∈ seen
      · simpa [remove_duplicates_aux, hmem] using ih seen
      · obtain ⟨hnd, hni⟩ := ih (evKey e :: seen)
        simp only [remove_duplicates_aux, if_neg hmem, List.map_cons, List.nodup_cons]
        refine ⟨⟨fun hc => (hni _ hc) (List.mem_cons_self _ _), hnd⟩, ?_⟩
        intro p hp
        rcases List.mem_cons.mp hp with hkey | hp2
        · rw [hkey]; exact hmem
        · intro hseen
          exact (hni p hp2) (List.mem_cons_of_mem _ hseen)

/-- The deduplication loop is idempotent over any `seen`. -/
theorem remove_duplicates_aux_idem :
    ∀ (l : List (Option Event)) (seen : List (String × String)),
      remove_duplicates_aux seen ((remove_duplicates_aux seen l).map some) =
        remove_duplicates_aux seen l := by
  intro l
  induction l with
  | nil => intro seen; rfl
  | cons hd tl ih =>
    intro seen
    cases hd with
    | none => simpa [remove_duplicates_aux] using ih seen
    | some e =>
      by_cases hmem : evKey e ∈ seen
      · simpa [remove_duplicates_aux, hmem] using ih seen
      · simp only [remove_duplicates_aux, if_neg hmem, List.map_cons]
        rw [ih (evKey e :: seen)]

/-- The deduplication loop emits a subsequence of the non-falsy input
events, in their input order. -/
theorem remove_duplicates_aux_sublist :
    ∀ (l : List (Option Event)) (seen : List (String × String)),
      (remove_duplicates_aux seen l).Sublist (l.filterMap id) := by
  intro l
  induction l with
  | nil => intro seen; simp [remove_duplicates_aux]
  | cons hd tl ih =>
    intro seen
    cases hd with
    | none => simpa [remove_duplicates_aux] using ih seen
    | some e =>
      have hcons : List.filterMap id (some e :: tl) = e :: List.filterMap id tl := by simp
      by_cases hmem : evKey e ∈ seen
      · rw [hcons]
        simp only [remove_duplicates_aux, if_pos hmem]
        exact (ih seen).trans (List.sublist_cons_self e _)
      · rw [hcons]
        simp only [remove_duplicates_aux, if_neg hmem]
        exact List.Sublist.cons₂ e (ih (evKey e :: seen))

/-- The try-block returns exactly the scraper outcome. -/
theorem scrape_and_cache_fst (tS1 tS2 tS3 : Int) (s : Except Unit (List Event)) (ttl : Int) (m : Store (List Event)) :
    (scrape_and_cache tS1 tS2 tS3 s ttl m).1 = s := by
  cases s <;> rfl

/-- On a successful scrape the try-block stores the fresh list under the
clubberia key. -/
theorem scrape_and_cache_snd_ok (tS1 tS2 tS3 : Int) (fresh : List Event) (ttl : Int) (m : Store (List Event)) :
    (scrape_and_cache tS1 tS2 tS3 (.ok fresh) ttl m).2 clubberia_key =
      some ⟨fresh, tS1 + ttl, tS2, tS3⟩ := by
  unfold scrape_and_cache TTLCache.set
  simp

/-- The except-block of the handler returns the psytrance_events value as
cache_fallback only when that entry is present, unexpired and non-empty;
in every other case the mock-data line itself raises and the error
escapes. -/
theorem events_error_handler_spec (tE tEAcc : Int) (m : Store (List Event)) :
    (∃ evs it, evs ≠ [] ∧ m events_key = some it ∧ it.value = evs ∧ tE ≤ it.expires_at ∧
      (events_error_handler tE tEAcc m).1 = .ok (.cache_fallback evs)) ∨
    (events_error_handler tE tEAcc m).1 = .error () := by
  rcases hm : m events_key with _ | it
  · right
    have hg : TTLCache.get tE tEAcc m events_key = (none, m) := by
      simp [TTLCache.get, hm]
    simp [events_error_handler, hg]
  · by_cases hexp : it.expires_at < tE
    · right
      have hg : TTLCache.get tE tEAcc m events_key =
          (none, fun q => if q = events_key then none else m q) := by
        simp [TTLCache.get, hm, hexp]
      simp [events_error_handler, hg]
    · have hg : TTLCache.get tE tEAcc m events_key =
          (some it.value, fun q => if q = events_key then some { it with last_accessed := tEAcc } else m q) := by
        simp [TTLCache.get, hm, hexp]
      by_cases hev : it.value = []
      · right
        simp [events_error_handler, hg, hev]
      · left
        refine ⟨it.value, it, hev, rfl, rfl, Int.not_lt.mp hexp, ?_⟩
        simp [events_error_handler, hg, hev]

/-! ## Claim theorems -/

/-- C1: for every key k, value v and ttl t, TTLCache.get k after
TTLCache.set k v t returns v whenever the current time is before the
entry's expires_at (the first set-time clock reading plus ttl), returns
None whenever the current time is after expires_at, and the read that
discovers the expired entry also deletes the key from the store. -/
theorem c1_ttl_get_after_set (V : Type) (m : Store V) (k : String) (v : V) (ttl t1 t2 t3 now nowAcc : Int) :
    (now < t1 + ttl →
      (TTLCache.get now nowAcc (TTLCache.set t1 t2 t3 m k v ttl) k).1 = some v) ∧
    (t1 + ttl < now →
      (TTLCache.get now nowAcc (TTLCache.set t1 t2 t3 m k v ttl) k).1 = none ∧
      (TTLCache.get now nowAcc (TTLCache.set t1 t2 t3 m k v ttl) k).2 k = none) := by
  have hk : TTLCache.set t1 t2 t3 m k v ttl k = some ⟨v, t1 + ttl, t2, t3⟩ := by
    unfold TTLCache.set; simp
  constructor
  · intro h
    have hlt : ¬((⟨v, t1 + ttl, t2, t3⟩ : CacheItem V).expires_at < now) := by
      simp only []; omega
    simp [TTLCache.get, hk, hlt]
  · intro h
    have hlt : (⟨v, t1 + ttl, t2, t3⟩ : CacheItem V).expires_at < now := h
    constructor
    · simp [TTLCache.get, hk, hlt]
    · simp [TTLCache.get, hk, hlt]

/-- C2: the strict classifier accepts exactly when the combined
title/description/genre/place text contains an allow-list keyword — with
no allow-list hit it returns false whether or not deny-list terms occur;
in particular it rejects the Jazz Night event and accepts the Goa Trance
Classics event. -/
theorem c2_strict_requires_allow_hit :
    (∀ e : Event, is_psy_event_strict e = is_psy_event (combined_text e)) ∧
    is_psy_event_strict jazzNightEvent = false ∧
    is_psy_event_strict goaTranceEvent = true :=
  ⟨strict_eq_is_psy_on_combined, by decide, by decide⟩

/-- C5 counterexample: TTLCache.set reads the clock separately for
expires_at and created_at; with readings 0 then 1 (and ttl 10) the stored
entry has expires_at 10 but created_at + ttl = 11, so
expires_at = created_at + ttl fails. -/
theorem c5_counterexample :
    (TTLCache.set 0 1 1 (emptyStore Nat) "k" 7 10 "k").map (fun it => it.expires_at) = some 10 ∧
    (TTLCache.set 0 1 1 (emptyStore Nat) "k" 7 10 "k").map (fun it => it.created_at + 10) = some 11 ∧
    (10 : Int) ≠ 11 :=
  ⟨by simp [TTLCache.set, emptyStore], by simp [TTLCache.set, emptyStore], by decide⟩

/-- C5 amended: the entry stored by TTLCache.set satisfies
expires_at ≤ created_at + ttl whenever the clock does not run backwards
between the two time.time() calls, with equality exactly when the two
readings coincide (expires_at is the first reading plus ttl, created_at
the second reading). -/
theorem c5_expires_created_invariant (V : Type) (m : Store V) (k : String) (v : V) (ttl t1 t2 t3 : Int) (h12 : t1 ≤ t2) :
    ∃ it, TTLCache.set t1 t2 t3 m k v ttl k = some it ∧
      it.expires_at ≤ it.created_at + ttl ∧
      (t1 = t2 → it.expires_at = it.created_at + ttl) := by
  refine ⟨⟨v, t1 + ttl, t2, t3⟩, ?_, ?_, ?_⟩
  · unfold TTLCache.set; simp
  · simp only []; omega
  · intro h; simp only []; omega

/-- C5 witness: the amended invariant at a concrete store, key, value and
clock. -/
theorem c5_witness :
    ∃ it, TTLCache.set 5 5 5 (emptyStore Nat) "k" 7 10 "k" = some it ∧
      it.expires_at ≤ it.created_at + 10 ∧
      ((5 : Int) = 5 → it.expires_at = it.created_at + 10) :=
  c5_expires_created_invariant Nat (emptyStore Nat) "k" 7 10 5 5 5 (le_refl 5)

/-- C6: deduplication by (title, date) is idempotent — re-running
_remove_duplicates on its own output returns it unchanged — and its
output is a subsequence of the (non-falsy) input events, so first-seen
order is preserved. -/
theorem c6_dedup_idempotent_order_preserving (l : List (Option Event)) :
    remove_duplicates ((remove_duplicates l).map some) = remove_duplicates l ∧
    (remove_duplicates l).Sublist (l.filterMap id) :=
  ⟨remove_duplicates_aux_idem l [], remove_duplicates_aux_sublist l []⟩

/-- C10: get_keyword_matches returns a non-empty list exactly when
is_psy_event accepts, for every text; on empty text both report no
match. -/
theorem c10_keyword_matches_iff_is_psy :
    (∀ t : String, get_keyword_matches t ≠ [] ↔ is_psy_event t = true) ∧
    get_keyword_matches "" = [] ∧ is_psy_event "" = false := by
  refine ⟨fun t => ?_, rfl, rfl⟩
  unfold get_keyword_matches is_psy_event
  by_cases h : t.isEmpty
  · simp [h]
  · simp only [if_neg h]
    exact filter_ne_nil_iff_any _ _

/-- C3 counterexample: a pipeline run on an empty scrape triggers the
fallback extension, and with the random stream constantly drawing the
first artist, venue, type and a 7-day offset, the synthesized events all
share the ("Astrix presents Psychedelic Journey", "2025/10/19") key, so
the returned list repeats a (title, date) pair. -/
theorem c3_counterexample :
    ¬ ((scrape_clubberia_post cToday (cToday * 86400) (fun _ => cPick) []).map evKey).Nodup := by
  decide

/-- C3 amended: whenever at least 3 events survive filtering and
deduplication (so the fallback synthesizer is not invoked), no two events
of the returned list share a (title, date) pair; runs that extend with
synthesized events may repeat a pair. -/
theorem c3_unique_title_date_without_fallback (today now : Nat) (picks : Nat → MockPick) (all_events : List (Option Event))
    (h : 3 ≤ (pre_extend today now all_events).length) :
    ((scrape_clubberia_post today now picks all_events).map evKey).Nodup := by
  unfold scrape_clubberia_post
  rw [if_neg (by omega)]
  have h0 : ((remove_duplicates all_events).map evKey).Nodup :=
    (remove_duplicates_aux_key_nodup all_events []).1
  have h1 : ((filter_future_events today (remove_duplicates all_events)).map evKey).Nodup :=
    List.Nodup.sublist ((List.filter_sublist _).map evKey) h0
  have h2 : ((pre_extend today now all_events).map evKey).Nodup := by
    unfold pre_extend sort_events
    exact ((List.perm_insertionSort (dateLE now) _).map evKey).nodup_iff.mpr h1
  exact List.Nodup.sublist ((List.take_sublist _ _).map evKey) h2

/-- C3 witness: a run with three distinct future-dated events keeps its
(title, date) pairs pairwise distinct. -/
theorem c3_witness :
    ((scrape_clubberia_post 0 0 (fun _ => cPick)
        [some (datedEvent 1 "2030/01/01"), some (datedEvent 2 "2030/01/02"), some (datedEvent 3 "2030/01/03")]).map evKey).Nodup :=
  c3_unique_title_date_without_fallback 0 0 (fun _ => cPick)
    [some (datedEvent 1 "2030/01/01"), some (datedEvent 2 "2030/01/02"), some (datedEvent 3 "2030/01/03")]
    (by decide)

/-- C7 counterexample: with the clock at 2025-10-12, sorting an event
dated 2999/01/01 together with an unparseable "Coming Soon" event puts
the unparseable event first (its key is only one year out), so an
unparseable-date event does not land after every parseable-date event. -/
theorem c7_counterexample :
    sort_events (cToday * 86400) [farEvent, tbaEvent] = [tbaEvent, farEvent] ∧
    parse_date tbaEvent.date = none ∧
    parse_date farEvent.date = some (2999, 1, 1) ∧
    ¬ (sort_events (cToday * 86400) [farEvent, tbaEvent]).Pairwise
        (fun a b => parse_date a.date = none → parse_date b.date = none) := by
  refine ⟨by decide, by decide, by decide, ?_⟩
  decide

/-- C7 amended: the sorter orders events ascending by the date key; since
an unparseable date is keyed as now plus 365 days, every event placed
after an unparseable one has key at least now + 365 days — unparseable
events land after every event dated less than one year out, though a
parseable date a year or more ahead sorts after them; and the future
filter keeps every unparseable-date event. -/
theorem c7_sort_unparseable_far_future (today now : Nat) (l : List Event) :
    List.Sorted (dateLE now) (sort_events now l) ∧
    (sort_events now l).Pairwise
      (fun a b => parse_date a.date = none → now + 365 * secondsPerDay ≤ parse_date_for_sort now b.date) ∧
    ∀ e ∈ l, parse_date e.date = none → e ∈ filter_future_events today l := by
  refine ⟨List.sorted_insertionSort _ _, ?_, ?_⟩
  · have hs : List.Sorted (dateLE now) (sort_events now l) := List.sorted_insertionSort _ _
    refine List.Pairwise.imp ?_ hs
    intro a b hab hn
    have ha : parse_date_for_sort now a.date = now + 365 * secondsPerDay := by
      unfold parse_date_for_sort; rw [hn]
    calc now + 365 * secondsPerDay = parse_date_for_sort now a.date := ha.symm
      _ ≤ parse_date_for_sort now b.date := hab
  · intro e he hn
    refine List.mem_filter.mpr ⟨he, ?_⟩
    unfold keep_future
    rw [hn]

/-- C8: whenever fewer than 3 events survive filtering and deduplication,
the fallback extension with the eight synthesized events makes the
returned list hold at least 3 events. -/
theorem c8_fallback_min_three (today now : Nat) (picks : Nat → MockPick) (all_events : List (Option Event))
    (h : (pre_extend today now all_events).length < 3) :
    3 ≤ (scrape_clubberia_post today now picks all_events).length := by
  unfold scrape_clubberia_post
  rw [if_pos h, List.length_take]
  have hm : (get_realistic_clubberia_events today picks).length = 8 := by
    unfold get_realistic_clubberia_events
    simp
  have hlen : (sort_events now (pre_extend today now all_events ++ get_realistic_clubberia_events today picks)).length
      = (pre_extend today now all_events).length + 8 := by
    unfold sort_events
    rw [(List.perm_insertionSort _ _).length_eq, List.length_append, hm]
  rw [hlen]
  omega

/-- C8 witness: an empty scrape yields at least 3 events. -/
theorem c8_witness :
    3 ≤ (scrape_clubberia_post 0 0 (fun _ => cPick) []).length :=
  c8_fallback_min_three 0 0 (fun _ => cPick) [] (by decide)

/-- C4 counterexample: the clubberia cache holds a stale entry (expired at
10, clock at 100) and the refresh fails; the handler neither returns the
cached clubberia value nor any mock payload — the except-block consults
the psytrance_events key (absent here), and its own
scraper._get_mock_events() line raises (scraper is unbound on this path
and the method does not exist), so the error surfaces to the caller. -/
theorem c4_counterexample :
    c4StaleStore clubberia_key = some ⟨[datedEvent 9 "2025/12/01"], 10, 0, 0⟩ ∧
    (main_get_events_clubberia 100 100 100 100 100 100 100 100 c4StaleStore (.error ()) "all").1
      = .error () := by
  refine ⟨by decide, by decide⟩

/-- C4 amended: when the clubberia cache is stale (has_valid_cache false)
and the refresh scrape raises, the stale clubberia value is never
returned: the except-block reads the psytrance_events key through
TTLCache.get (which drops expired entries) and answers cache_fallback
only with an unexpired, non-empty value of that key; in every other case
its mock-data line itself raises, so the error surfaces to the caller
instead of a mock payload. -/
theorem c4_failure_fallback (tValid tGet tAcc tS1 tS2 tS3 tE tEAcc : Int) (m : Store (List Event)) (genre : String)
    (hstale : TTLCache.has_valid_cache tValid m clubberia_key = false) :
    (∃ evs it, evs ≠ [] ∧ m events_key = some it ∧ it.value = evs ∧ tE ≤ it.expires_at ∧
      (main_get_events_clubberia tValid tGet tAcc tS1 tS2 tS3 tE tEAcc m (.error ()) genre).1
        = .ok (.cache_fallback evs)) ∨
    (main_get_events_clubberia tValid tGet tAcc tS1 tS2 tS3 tE tEAcc m (.error ()) genre).1
      = .error () := by
  have hge : EventCache.get_events_clubberia tValid tGet tAcc tS1 tS2 tS3 m (.error ()) 21600
      = (.error (), m) := by
    unfold EventCache.get_events_clubberia
    rw [if_neg (by simp [hstale])]
    rfl
  have hmain : main_get_events_clubberia tValid tGet tAcc tS1 tS2 tS3 tE tEAcc m (.error ()) genre
      = events_error_handler tE tEAcc m := by
    unfold main_get_events_clubberia
    rw [hge]
  rw [hmain]
  exact events_error_handler_spec tE tEAcc m

/-- C4 witness: the amended behaviour at the concrete stale store (the
error-surfacing branch holds there). -/
theorem c4_witness :
    (∃ evs it, evs ≠ [] ∧ c4StaleStore events_key = some it ∧ it.value = evs ∧ (100 : Int) ≤ it.expires_at ∧
      (main_get_events_clubberia 100 100 100 100 100 100 100 100 c4StaleStore (.error ()) "all").1
        = .ok (.cache_fallback evs)) ∨
    (main_get_events_clubberia 100 100 100 100 100 100 100 100 c4StaleStore (.error ()) "all").1
      = .error () :=
  c4_failure_fallback 100 100 100 100 100 100 100 100 c4StaleStore "all" (by decide)

/-- C9: an empty list cached under the clubberia key is treated as a miss
even while has_valid_cache reports the entry valid: get_events re-runs
the scraper (its outcome, success or raised error, becomes the result)
and on success overwrites the entry with the fresh list — the truthiness
check on the cached value, not only expiry, decides whether the cache is
used. -/
theorem c9_empty_cached_list_rescrapes (tValid tGet tAcc tS1 tS2 tS3 : Int) (m : Store (List Event)) (scrape : Except Unit (List Event)) (ttl : Int) (it : CacheItem (List Event))
    (hm : m clubberia_key = some it) (hempty : it.value = []) (hvalid : tValid ≤ it.expires_at) :
    TTLCache.has_valid_cache tValid m clubberia_key = true ∧
    (EventCache.get_events_clubberia tValid tGet tAcc tS1 tS2 tS3 m scrape ttl).1 = scrape ∧
    ∀ fresh, scrape = .ok fresh →
      (EventCache.get_events_clubberia tValid tGet tAcc tS1 tS2 tS3 m scrape ttl).2 clubberia_key
        = some ⟨fresh, tS1 + ttl, tS2, tS3⟩ := by
  have hv : TTLCache.has_valid_cache tValid m clubberia_key = true := by
    unfold TTLCache.has_valid_cache
    rw [hm]
    exact decide_eq_true hvalid
  have hge : EventCache.get_events_clubberia tValid tGet tAcc tS1 tS2 tS3 m scrape ttl
      = scrape_and_cache tS1 tS2 tS3 scrape ttl
          (if it.expires_at < tGet then (fun q => if q = clubberia_key then none else m q)
           else (fun q => if q = clubberia_key then some { it with last_accessed := tAcc } else m q)) := by
    unfold EventCache.get_events_clubberia
    rw [if_pos hv]
    by_cases hexp : it.expires_at < tGet
    · have hg : TTLCache.get tGet tAcc m clubberia_key =
          (none, fun q => if q = clubberia_key then none else m q) := by
        simp [TTLCache.get, hm, hexp]
      rw [hg, if_pos hexp]
    · have hg : TTLCache.get tGet tAcc m clubberia_key =
          (some it.value, fun q => if q = clubberia_key then some { it with last_accessed := tAcc } else m q) := by
        simp [TTLCache.get, hm, hexp]
      rw [hg, if_neg hexp, hempty]
      simp
  refine ⟨hv, ?_, ?_⟩
  · rw [hge]
    exact scrape_and_cache_fst _ _ _ _ _ _
  · intro fresh hf
    rw [hge, hf]
    exact scrape_and_cache_snd_ok _ _ _ _ _ _

/-- C9 witness: a valid clubberia entry holding the empty list is
bypassed; the fresh scrape result is returned and cached. -/
theorem c9_witness :
    TTLCache.has_valid_cache 50 c9Store clubberia_key = true ∧
    (EventCache.get_events_clubberia 50 50 50 60 61 62 c9Store (.ok [datedEvent 7 "2030/05/05"]) 10).1
      = .ok [datedEvent 7 "2030/05/05"] ∧
    (∀ fresh, (.ok [datedEvent 7 "2030/05/05"] : Except Unit (List Event)) = .ok fresh →
      (EventCache.get_events_clubberia 50 50 50 60 61 62 c9Store (.ok [datedEvent 7 "2030/05/05"]) 10).2 clubberia_key
        = some ⟨fresh, 60 + 10, 61, 62⟩) :=
  c9_empty_cached_list_rescrapes 50 50 50 60 61 62 c9Store (.ok [datedEvent 7 "2030/05/05"]) 10
    ⟨[], 100, 0, 0⟩ (by decide) rfl (by decide)
